import Mathlib

/-!
Shallow embedding of the Pong game simulation core (src/main.c) over exact
rational arithmetic, together with theorems settling the specification
claims about it.  C `float` values are modelled as `ℚ`; C `int` values as
`ℤ` (or `ℕ` where the source value is a count that is never negative).
Raylib/raymath library primitives used by the simulation
(`Clamp`, `CheckCollisionPointRec`, `CheckCollisionCircleRec`) are embedded
from raylib's standard implementations, since only their headers ship with
the repository.  External effects (sound, drawing, the random generator and
the clock) are modelled by threading an explicit environment of input flags
and pre-drawn random values through the update functions.
-/

namespace Pong

/-! ## Constants (src/main.c lines 39-48, 98) -/

def SCREEN_WIDTH : ℚ := 1280
def SCREEN_HEIGHT : ℚ := 800
def PADDLE_WIDTH : ℚ := 25
def PADDLE_HEIGHT : ℚ := 200
def BALL_RADIUS : ℚ := 20
def BALL_INITIAL_SPEED : ℚ := 8
def PADDLE_SPEED : ℚ := 12
def MAX_BALL_SPEED : ℚ := 15
def SPEED_INCREMENT : ℚ := 1/5
def WALL_BOUNCE_BUFFER : ℚ := 2
def MAX_PARTICLES : ℕ := 100

/-! ## Geometry and color primitives -/

structure Vector2 where
  x : ℚ
  y : ℚ
deriving DecidableEq, Repr

structure Rectangle where
  x : ℚ
  y : ℚ
  width : ℚ
  height : ℚ
deriving DecidableEq, Repr

/-- RGBA color; purely cosmetic in every claim, carried for fidelity. -/
structure Color where
  r : ℕ
  g : ℕ
  b : ℕ
  a : ℕ
deriving DecidableEq, Repr

def WHITE : Color := ⟨255, 255, 255, 255⟩
def COLOR_BALL : Color := ⟨255, 255, 255, 255⟩
def COLOR_PLAYER_ONE : Color := ⟨0, 180, 255, 255⟩
def COLOR_PLAYER_TWO : Color := ⟨0, 220, 120, 255⟩
def COLOR_AI : Color := ⟨255, 100, 100, 255⟩

/-- Raylib `ColorAlpha`: replace the alpha channel; the `unsigned char`
cast of `255*alpha` is modelled with a floor (cosmetic only). -/
def ColorAlpha (c : Color) (alpha : ℚ) : Color :=
  let a := if alpha < 0 then 0 else if alpha > 1 then 1 else alpha
  { c with a := (⌊255 * a⌋).toNat }

/-- Raymath `Clamp` (include/raymath.h): move below `minV` up to `minV`,
then cap at `maxV`. -/
def Clamp (value minV maxV : ℚ) : ℚ :=
  let result := if value < minV then minV else value
  if result > maxV then maxV else result

/-- Raylib `CheckCollisionPointRec` (rshapes.c): half-open containment test. -/
def CheckCollisionPointRec (point : Vector2) (rec : Rectangle) : Bool :=
  decide (rec.x ≤ point.x) && decide (point.x < rec.x + rec.width) &&
  decide (rec.y ≤ point.y) && decide (point.y < rec.y + rec.height)

/-- Raylib `CheckCollisionCircleRec` (rshapes.c): separating-axis test with
early outs, then a corner-distance check. -/
def CheckCollisionCircleRec (center : Vector2) (radius : ℚ) (rec : Rectangle) : Bool :=
  let recCenterX := rec.x + rec.width / 2
  let recCenterY := rec.y + rec.height / 2
  let dx := |center.x - recCenterX|
  let dy := |center.y - recCenterY|
  if dx > rec.width / 2 + radius then false
  else if dy > rec.height / 2 + radius then false
  else if dx ≤ rec.width / 2 then true
  else if dy ≤ rec.height / 2 then true
  else decide ((dx - rec.width / 2) ^ 2 + (dy - rec.height / 2) ^ 2 ≤ radius ^ 2)

/-- C `roundf`: round half away from zero. -/
def roundf (x : ℚ) : ℚ :=
  if x < 0 then -((⌊-x + 1/2⌋ : ℤ) : ℚ) else ((⌊x + 1/2⌋ : ℤ) : ℚ)

/-! ## Entities (src/main.c lines 59-123) -/

inductive GameState where
  | splash
  | modeSelect
  | playing
  | paused
  | gameOver
deriving DecidableEq, Repr

inductive GameMode where
  | ai
  | multiplayer
deriving DecidableEq, Repr

structure Ball where
  position : Vector2
  velocity : Vector2
  radius : ℚ
  color : Color
deriving DecidableEq, Repr

structure Paddle where
  rect : Rectangle
  speed : ℚ
  color : Color
deriving DecidableEq, Repr

structure Particle where
  position : Vector2
  velocity : Vector2
  lifeTime : ℚ
  maxLifeTime : ℚ
  color : Color
  size : ℚ
deriving DecidableEq, Repr

/-- The `Game` struct.  The fixed 100-slot particle array with its
`activeParticles` cursor is modelled as the list of the live particles
(slots past the cursor are never read before being overwritten in the
source, so the list of live slots is the whole observable pool state).
The `Font`/`Sound` handles and the `fullscreen` flag are presentation-only
and are not part of the simulation state. -/
structure Game where
  state : GameState
  mode : GameMode
  ball : Ball
  playerPaddle : Paddle
  aiPaddle : Paddle
  playerScore : ℤ
  aiScore : ℤ
  winScore : ℤ
  ballSpeedMultiplier : ℚ
  scoreAnimScale : ℚ
  lastScoreTime : ℚ
  screenShake : ℚ
  shakeOffset : Vector2
  particles : List Particle
deriving DecidableEq, Repr

/-- Oracle for the external collaborators of one `UpdateGame` tick: the
sampled input keys and the values the raylib random generator and clock
would return at each call site. -/
structure Env where
  keyP : Bool
  keyW : Bool
  keyS : Bool
  keyUp : Bool
  keyDown : Bool
  keyR : Bool
  keyM : Bool
  /-- `GetRandomValue(0, 100)` drawn in `UpdateAI`. -/
  aiRandChance : ℤ
  /-- `GetRandomValue(-30, 30)` drawn in `UpdateAI`. -/
  aiRandOffset : ℤ
  /-- `GetRandomValue(-100, 100)` drawn in `ResetBall`. -/
  serveRand : ℤ
  /-- Per-particle draws `(vx, vy, maxLife, size)` for the player-hit burst. -/
  hitRnds1 : ℕ → ℤ × ℤ × ℤ × ℤ
  /-- Per-particle draws for the AI-paddle-hit burst. -/
  hitRnds2 : ℕ → ℤ × ℤ × ℤ × ℤ
  /-- Per-particle draws for the `ResetBall` burst. -/
  serveRnds : ℕ → ℤ × ℤ × ℤ × ℤ
  /-- `GetTime()`. -/
  time : ℚ

/-! ## Particle subsystem (src/main.c lines 1035-1085) -/

/-- One particle as filled in by the loop body of `CreateParticleEffect`:
velocities are `GetRandomValue(-200,200)/100.0f`, max lifetime
`GetRandomValue(30,90)/100.0f`, size `GetRandomValue(2,6)`. -/
def mkParticle (pos : Vector2) (color : Color) (rnd : ℤ × ℤ × ℤ × ℤ) : Particle :=
  { position := pos
    velocity := ⟨(rnd.1 : ℚ) / 100, (rnd.2.1 : ℚ) / 100⟩
    lifeTime := 0
    maxLifeTime := (rnd.2.2.1 : ℚ) / 100
    color := color
    size := (rnd.2.2.2 : ℚ) }

/-- The loop of `CreateParticleEffect`:
`for (i = 0; i < count && activeParticles < MAX_PARTICLES; i++)` append. -/
def emitLoop (pos : Vector2) (color : Color) (rnds : ℕ → ℤ × ℤ × ℤ × ℤ) :
    ℕ → ℕ → List Particle → List Particle
  | 0, _, pool => pool
  | n + 1, i, pool =>
      if pool.length < MAX_PARTICLES then
        emitLoop pos color rnds n (i + 1) (pool ++ [mkParticle pos color (rnds i)])
      else pool

def CreateParticleEffect (g : Game) (pos : Vector2) (color : Color) (count : ℕ)
    (rnds : ℕ → ℤ × ℤ × ℤ × ℤ) : Game :=
  { g with particles := emitLoop pos color rnds count 0 g.particles }

/-- The update/compaction loop of `UpdateAndDrawParticles`: age each live
particle by `deltaTime`; a particle whose lifetime reached its maximum is
skipped (`continue`), a survivor advances by its velocity and is compacted
down to the next free slot. -/
def updateParticles (deltaTime : ℚ) : List Particle → List Particle
  | [] => []
  | p :: ps =>
      let p1 := { p with lifeTime := p.lifeTime + deltaTime }
      if p1.maxLifeTime ≤ p1.lifeTime then
        updateParticles deltaTime ps
      else
        { p1 with position := ⟨p1.position.x + p1.velocity.x, p1.position.y + p1.velocity.y⟩ } ::
          updateParticles deltaTime ps

def UpdateAndDrawParticles (g : Game) (deltaTime : ℚ) : Game :=
  { g with particles := updateParticles deltaTime g.particles }

/-! ## Serve and match initialization (src/main.c lines 643-688, 1241-1264) -/

def ResetBall (g : Game) (serverIsPlayer : Bool) (env : Env) : Game :=
  let initialSpeed := BALL_INITIAL_SPEED * g.ballSpeedMultiplier
  let g1 := { g with
    ball := { g.ball with
      position := ⟨SCREEN_WIDTH / 2, SCREEN_HEIGHT / 2⟩
      velocity := ⟨if serverIsPlayer then initialSpeed else -initialSpeed,
                   (env.serveRand : ℚ) / 100 * initialSpeed⟩ }
    lastScoreTime := env.time
    scoreAnimScale := 3/2 }
  let particleColor := if serverIsPlayer then g.aiPaddle.color else g.playerPaddle.color
  CreateParticleEffect g1 g1.ball.position particleColor 30 env.serveRnds

def InitGame (g : Game) (mode : GameMode) (env : Env) : Game :=
  let g1 := { g with
    mode := mode
    state := GameState.playing
    playerScore := 0
    aiScore := 0
    winScore := 10
    ball := { g.ball with radius := BALL_RADIUS, color := COLOR_BALL }
    playerPaddle :=
      { rect := ⟨10, (SCREEN_HEIGHT - PADDLE_HEIGHT) / 2, PADDLE_WIDTH, PADDLE_HEIGHT⟩
        speed := PADDLE_SPEED
        color := COLOR_PLAYER_ONE }
    aiPaddle :=
      { rect := ⟨SCREEN_WIDTH - 10 - PADDLE_WIDTH, (SCREEN_HEIGHT - PADDLE_HEIGHT) / 2,
                 PADDLE_WIDTH, PADDLE_HEIGHT⟩
        speed := PADDLE_SPEED
        color := if mode = GameMode.ai then COLOR_AI else COLOR_PLAYER_TWO } }
  let g2 := ResetBall g1 true env
  { g2 with
    particles := []
    scoreAnimScale := 1
    lastScoreTime := 0
    screenShake := 0
    shakeOffset := ⟨0, 0⟩ }

/-! ## Paddle collision test (src/main.c lines 1088-1134) -/

/-- `CheckPaddleCollision`.  The source computes `ballPrev`, `ballDir` and
`rayLength = sqrtf(dirx*dirx + diry*diry)`; the normalized direction is
never used afterwards, and `rayLength > 0` holds exactly when the squared
length is positive, so the square root is embedded as that exact test. -/
def CheckPaddleCollision (ball : Ball) (paddle : Paddle) : Bool :=
  let paddleRect : Rectangle :=
    { paddle.rect with
      x := paddle.rect.x - ball.radius
      width := paddle.rect.width + ball.radius * 2 }
  let movingTowardPaddle :=
    (decide (paddleRect.x < SCREEN_WIDTH / 2) && decide (ball.velocity.x < 0)) ||
    (decide (paddleRect.x > SCREEN_WIDTH / 2) && decide (ball.velocity.x > 0))
  if !movingTowardPaddle then false
  else
    let ballDir : Vector2 := ⟨ball.velocity.x, ball.velocity.y⟩
    let rayLengthSq := ballDir.x * ballDir.x + ballDir.y * ballDir.y
    if rayLengthSq > 0 then
      let hitBox : Rectangle :=
        ⟨paddleRect.x - ball.radius, paddleRect.y - ball.radius,
         paddleRect.width + ball.radius * 2, paddleRect.height + ball.radius * 2⟩
      if CheckCollisionPointRec ball.position hitBox ||
         CheckCollisionCircleRec ball.position ball.radius paddleRect then
        true
      else
        CheckCollisionCircleRec ball.position ball.radius paddleRect
    else
      CheckCollisionCircleRec ball.position ball.radius paddleRect

/-! ## AI controller (src/main.c lines 1136-1206) -/

/-- The `bounceDistance` expression of `UpdateAI`:
`predictedY < 0 ? -predictedY : (predictedY > H ? 2H - predictedY : 0)`. -/
def bounceDistance (h p : ℚ) : ℚ :=
  if p < 0 then -p else if p > h then 2 * h - p else 0

/-- The `while (bounceDistance > 0)` folding loop of `UpdateAI`, with an
explicit fuel bound.  `foldBounce_fuel_stable` below shows that three
units of fuel already compute the loop's final value, so the fuelled
function at fuel 3 is the exact loop result. -/
def foldBounce (h : ℚ) : ℕ → ℚ → ℚ
  | 0, p => p
  | n + 1, p =>
      if bounceDistance h p > 0 then
        if p < 0 then foldBounce h n (-p)
        else if p > h then foldBounce h n (2 * h - p)
        else p
      else p

/-- The predicted interception `y` of `UpdateAI` (lines 1144-1174): current
ball `y`, refined by linear projection plus wall-bounce folding when the
ball moves toward the AI paddle and the time to intercept is positive. -/
def aiPredictedY (aiPaddle : Paddle) (ball : Ball) : ℚ :=
  if ball.velocity.x > 0 then
    let distanceToIntercept := aiPaddle.rect.x - ball.position.x
    let timeToIntercept := distanceToIntercept / ball.velocity.x
    if timeToIntercept > 0 then
      foldBounce SCREEN_HEIGHT 3 (ball.position.y + ball.velocity.y * timeToIntercept)
    else ball.position.y
  else ball.position.y

/-- Division that fails instead of being performed with a zero divisor. -/
def checkedDiv (a b : ℚ) : Option ℚ :=
  if b = 0 then none else some (a / b)

/-- `aiPredictedY` with the interception-time division routed through
`checkedDiv`: `none` would mean the code path divides by zero. -/
def aiPredictedYChecked (aiPaddle : Paddle) (ball : Ball) : Option ℚ :=
  if ball.velocity.x > 0 then
    match checkedDiv (aiPaddle.rect.x - ball.position.x) ball.velocity.x with
    | none => none
    | some timeToIntercept =>
        if timeToIntercept > 0 then
          some (foldBounce SCREEN_HEIGHT 3 (ball.position.y + ball.velocity.y * timeToIntercept))
        else some ball.position.y
  else some ball.position.y

/-- The clamp-to-screen-bounds assignment
`rect.y = Clamp(rect.y, 0, SCREEN_HEIGHT - rect.height)` applied to the
player paddle, the second player paddle and the AI paddle. -/
def clampPaddleY (p : Paddle) : Paddle :=
  { p with rect := { p.rect with y := Clamp p.rect.y 0 (SCREEN_HEIGHT - p.rect.height) } }

/-- `UpdateAI`: difficulty scaling, interception prediction, random
imprecision, eased movement capped by paddle speed, and a final clamp. -/
def UpdateAI (aiPaddle : Paddle) (ball : Ball) (g : Game) (env : Env) : Paddle :=
  let difficulty := Clamp (7/10 * (1 + (g.ballSpeedMultiplier - 1) * (1/2))) (1/2) (19/20)
  let predictedY := aiPredictedY aiPaddle ball
  let targetY0 := predictedY - aiPaddle.rect.height / 2
  let targetY1 :=
    if env.aiRandChance < ⌊30 * (1 - difficulty)⌋ then
      targetY0 + (env.aiRandOffset : ℚ) * (1 - difficulty)
    else targetY0
  let targetY := Clamp targetY1 0 (SCREEN_HEIGHT - aiPaddle.rect.height)
  let distanceToTarget := targetY - aiPaddle.rect.y
  let paddle1 :=
    if |distanceToTarget| > 1 then
      let moveStep0 := distanceToTarget * (1/10) * difficulty
      let maxStep := aiPaddle.speed * difficulty
      let moveStep :=
        if |moveStep0| > maxStep then maxStep * (if distanceToTarget > 0 then 1 else -1)
        else moveStep0
      { aiPaddle with rect := { aiPaddle.rect with y := aiPaddle.rect.y + moveStep } }
    else aiPaddle
  clampPaddleY paddle1

/-! ## The Playing-phase tick (src/main.c lines 690-832) -/

def movePlayerPaddle (g : Game) (env : Env) : Game :=
  let playerMovement :=
    (if env.keyW then -g.playerPaddle.speed else 0) +
    (if env.keyS then g.playerPaddle.speed else 0)
  let moved : Paddle :=
    { g.playerPaddle with rect :=
        { g.playerPaddle.rect with y := g.playerPaddle.rect.y + playerMovement } }
  { g with playerPaddle := clampPaddleY moved }

def moveSecondPaddle (g : Game) (env : Env) : Game :=
  match g.mode with
  | GameMode.ai => { g with aiPaddle := UpdateAI g.aiPaddle g.ball g env }
  | GameMode.multiplayer =>
      let player2Movement :=
        (if env.keyUp then -g.aiPaddle.speed else 0) +
        (if env.keyDown then g.aiPaddle.speed else 0)
      let moved : Paddle :=
        { g.aiPaddle with rect :=
            { g.aiPaddle.rect with y := g.aiPaddle.rect.y + player2Movement } }
      { g with aiPaddle := clampPaddleY moved }

def integrateBall (b : Ball) : Ball :=
  { b with position := ⟨b.position.x + b.velocity.x, b.position.y + b.velocity.y⟩ }

/-- Wall collision (lines 737-750): on a vertical-extent crossing, invert
the vertical velocity and push the ball back inside by the buffer. -/
def resolveWallCollision (b : Ball) : Ball :=
  if b.position.y - b.radius ≤ 0 ∨ SCREEN_HEIGHT ≤ b.position.y + b.radius then
    let b1 := { b with velocity := ⟨b.velocity.x, b.velocity.y * (-1)⟩ }
    let b2 :=
      if b1.position.y < b1.radius then
        { b1 with position := ⟨b1.position.x, b1.radius + WALL_BOUNCE_BUFFER⟩ }
      else b1
    if b2.position.y > SCREEN_HEIGHT - b2.radius then
      { b2 with position := ⟨b2.position.x, SCREEN_HEIGHT - b2.radius - WALL_BOUNCE_BUFFER⟩ }
    else b2
  else b

/-- The normalized hit offset computed in both paddle-hit handlers. -/
def hitOffset (ball : Ball) (paddle : Paddle) : ℚ :=
  (ball.position.y - (paddle.rect.y + paddle.rect.height / 2)) / (paddle.rect.height / 2)

/-- The capped post-hit horizontal speed computed in both handlers. -/
def hitSpeed (g : Game) : ℚ :=
  min (|g.ball.velocity.x| + SPEED_INCREMENT) (MAX_BALL_SPEED * g.ballSpeedMultiplier)

/-- Player-paddle hit handler (lines 753-772). -/
def applyPlayerHit (g : Game) (env : Env) : Game :=
  let hitPosition := hitOffset g.ball g.playerPaddle
  let speed := hitSpeed g
  let g1 := { g with
    ball := { g.ball with velocity := ⟨speed, hitPosition * (speed * (3/4))⟩ }
    screenShake := 5 }
  CreateParticleEffect g1 g1.ball.position (ColorAlpha WHITE (4/5)) 15 env.hitRnds1

/-- AI/second-paddle hit handler (lines 774-793). -/
def applyAiHit (g : Game) (env : Env) : Game :=
  let hitPosition := hitOffset g.ball g.aiPaddle
  let speed := hitSpeed g
  let g1 := { g with
    ball := { g.ball with velocity := ⟨-speed, hitPosition * (speed * (3/4))⟩ }
    screenShake := 5 }
  CreateParticleEffect g1 g1.ball.position (ColorAlpha WHITE (4/5)) 15 env.hitRnds2

def resolvePaddleHits (g : Game) (env : Env) : Game :=
  let g1 := if CheckPaddleCollision g.ball g.playerPaddle then applyPlayerHit g env else g
  if CheckPaddleCollision g1.ball g1.aiPaddle then applyAiHit g1 env else g1

/-- Scoring (lines 796-804): the two boundary tests are an `if`/`else if`
pair, so at most one side scores per tick. -/
def resolveScoring (g : Game) (env : Env) : Game :=
  if g.ball.position.x < -BALL_RADIUS then
    ResetBall { g with aiScore := g.aiScore + 1 } false env
  else if g.ball.position.x > SCREEN_WIDTH + BALL_RADIUS then
    ResetBall { g with playerScore := g.playerScore + 1 } true env
  else g

/-- Win check (lines 807-809). -/
def checkGameOver (g : Game) : Game :=
  if g.playerScore ≥ g.winScore ∨ g.aiScore ≥ g.winScore then
    { g with state := GameState.gameOver }
  else g

/-- The physics portion of a Playing tick, in source order: paddles, ball
integration, wall bounce, paddle hits, scoring. -/
def playingPhysics (g : Game) (env : Env) : Game :=
  let g1 := movePlayerPaddle g env
  let g2 := moveSecondPaddle g1 env
  let g3 := { g2 with ball := resolveWallCollision (integrateBall g2.ball) }
  let g4 := resolvePaddleHits g3 env
  resolveScoring g4 env

/-- `UpdateGame`: the full per-tick state-machine dispatch. -/
def UpdateGame (g : Game) (env : Env) : Game :=
  match g.state with
  | GameState.playing =>
      if env.keyP then { g with state := GameState.paused }
      else checkGameOver (playingPhysics g env)
  | GameState.paused =>
      if env.keyP then { g with state := GameState.playing } else g
  | GameState.gameOver =>
      if env.keyR then InitGame g g.mode env
      else if env.keyM then { g with state := GameState.modeSelect }
      else g
  | _ => g

/-! ## Mode-select update (src/main.c lines 578-641) -/

/-- Inputs of one `UpdateModeSelect` frame. -/
structure ModeEnv where
  keyOne : Bool
  keyTwo : Bool
  mouseDown : Bool
  mousePressed : Bool
  mousePos : Vector2
  initEnv : Env

/-- The slider geometry of the mode-select screen. -/
def sliderBg : Rectangle := ⟨SCREEN_WIDTH / 2 - 150, SCREEN_HEIGHT * 3 / 4, 300, 20⟩

def sliderHitArea : Rectangle :=
  ⟨sliderBg.x, sliderBg.y - 10, sliderBg.width, sliderBg.height + 20⟩

def mode1Bounds : Rectangle :=
  ⟨SCREEN_WIDTH / 2 - 200, SCREEN_HEIGHT / 2 - 30, 400, 60⟩

def mode2Bounds : Rectangle :=
  ⟨SCREEN_WIDTH / 2 - 200, SCREEN_HEIGHT / 2 + 30, 400, 60⟩

/-- `UpdateModeSelect`; the `static bool dragging` persists across frames
and is threaded explicitly (argument and result).  Returns the updated
game and the new dragging flag. -/
def UpdateModeSelect (g : Game) (dragging : Bool) (menv : ModeEnv) : Game × Bool :=
  let g1 :=
    if menv.keyOne then InitGame g GameMode.ai menv.initEnv
    else if menv.keyTwo then InitGame g GameMode.multiplayer menv.initEnv
    else g
  let sliderStep :=
    if menv.mouseDown then
      if dragging || CheckCollisionPointRec menv.mousePos sliderHitArea then
        let relativeX := Clamp (menv.mousePos.x - sliderBg.x) 0 sliderBg.width
        let m := 1/2 + relativeX / sliderBg.width * (3/2)
        ({ g1 with ballSpeedMultiplier := roundf (m * 10) / 10 }, true)
      else (g1, dragging)
    else (g1, false)
  let g2 := sliderStep.1
  let dragging2 := sliderStep.2
  if menv.mousePressed then
    if CheckCollisionPointRec menv.mousePos mode1Bounds then
      (InitGame g2 GameMode.ai menv.initEnv, dragging2)
    else if CheckCollisionPointRec menv.mousePos mode2Bounds then
      (InitGame g2 GameMode.multiplayer menv.initEnv, dragging2)
    else (g2, dragging2)
  else (g2, dragging2)

/-! ## Sample fixtures used by witnesses and counterexamples -/

/-- A fixed environment: no keys pressed, fixed random draws. -/
def sampleEnv : Env :=
  { keyP := false, keyW := false, keyS := false, keyUp := false, keyDown := false
    keyR := false, keyM := false, aiRandChance := 50, aiRandOffset := 0, serveRand := 0
    hitRnds1 := fun _ => (0, 0, 50, 3), hitRnds2 := fun _ => (0, 0, 50, 3)
    serveRnds := fun _ => (0, 0, 50, 3), time := 0 }

/-- A mid-rally Playing state at match point for the player. -/
def sampleGame : Game :=
  { state := GameState.playing, mode := GameMode.multiplayer
    ball := ⟨⟨640, 400⟩, ⟨8, 0⟩, 20, COLOR_BALL⟩
    playerPaddle := ⟨⟨10, 300, 25, 200⟩, 12, COLOR_PLAYER_ONE⟩
    aiPaddle := ⟨⟨1245, 300, 25, 200⟩, 12, COLOR_PLAYER_TWO⟩
    playerScore := 10, aiScore := 0, winScore := 10
    ballSpeedMultiplier := 1, scoreAnimScale := 1, lastScoreTime := 0
    screenShake := 0, shakeOffset := ⟨0, 0⟩, particles := [] }

/-! ## Helper lemmas: clamping -/

theorem Clamp_mem (v minV maxV : ℚ) (h : minV ≤ maxV) :
    minV ≤ Clamp v minV maxV ∧ Clamp v minV maxV ≤ maxV := by
  unfold Clamp
  dsimp only
  split_ifs <;> constructor <;> linarith

/-! ## Helper lemmas: frame conditions of the tick steps -/

@[simp] theorem CreateParticleEffect_ball (g : Game) (pos : Vector2) (c : Color)
    (n : ℕ) (r : ℕ → ℤ × ℤ × ℤ × ℤ) : (CreateParticleEffect g pos c n r).ball = g.ball := rfl

@[simp] theorem CreateParticleEffect_playerPaddle (g : Game) (pos : Vector2) (c : Color)
    (n : ℕ) (r : ℕ → ℤ × ℤ × ℤ × ℤ) :
    (CreateParticleEffect g pos c n r).playerPaddle = g.playerPaddle := rfl

@[simp] theorem CreateParticleEffect_aiPaddle (g : Game) (pos : Vector2) (c : Color)
    (n : ℕ) (r : ℕ → ℤ × ℤ × ℤ × ℤ) :
    (CreateParticleEffect g pos c n r).aiPaddle = g.aiPaddle := rfl

@[simp] theorem CreateParticleEffect_ballSpeedMultiplier (g : Game) (pos : Vector2) (c : Color)
    (n : ℕ) (r : ℕ → ℤ × ℤ × ℤ × ℤ) :
    (CreateParticleEffect g pos c n r).ballSpeedMultiplier = g.ballSpeedMultiplier := rfl

@[simp] theorem ResetBall_playerPaddle (g : Game) (s : Bool) (env : Env) :
    (ResetBall g s env).playerPaddle = g.playerPaddle := rfl

@[simp] theorem ResetBall_aiPaddle (g : Game) (s : Bool) (env : Env) :
    (ResetBall g s env).aiPaddle = g.aiPaddle := rfl

@[simp] theorem ResetBall_ballSpeedMultiplier (g : Game) (s : Bool) (env : Env) :
    (ResetBall g s env).ballSpeedMultiplier = g.ballSpeedMultiplier := rfl

@[simp] theorem applyPlayerHit_playerPaddle (g : Game) (env : Env) :
    (applyPlayerHit g env).playerPaddle = g.playerPaddle := rfl

@[simp] theorem applyPlayerHit_aiPaddle (g : Game) (env : Env) :
    (applyPlayerHit g env).aiPaddle = g.aiPaddle := rfl

@[simp] theorem applyPlayerHit_ballSpeedMultiplier (g : Game) (env : Env) :
    (applyPlayerHit g env).ballSpeedMultiplier = g.ballSpeedMultiplier := rfl

@[simp] theorem applyAiHit_playerPaddle (g : Game) (env : Env) :
    (applyAiHit g env).playerPaddle = g.playerPaddle := rfl

@[simp] theorem applyAiHit_aiPaddle (g : Game) (env : Env) :
    (applyAiHit g env).aiPaddle = g.aiPaddle := rfl

@[simp] theorem applyAiHit_ballSpeedMultiplier (g : Game) (env : Env) :
    (applyAiHit g env).ballSpeedMultiplier = g.ballSpeedMultiplier := rfl

@[simp] theorem resolvePaddleHits_playerPaddle (g : Game) (env : Env) :
    (resolvePaddleHits g env).playerPaddle = g.playerPaddle := by
  unfold resolvePaddleHits
  dsimp only
  split <;> split <;> rfl

@[simp] theorem resolvePaddleHits_aiPaddle (g : Game) (env : Env) :
    (resolvePaddleHits g env).aiPaddle = g.aiPaddle := by
  unfold resolvePaddleHits
  dsimp only
  split <;> split <;> rfl

@[simp] theorem resolvePaddleHits_ballSpeedMultiplier (g : Game) (env : Env) :
    (resolvePaddleHits g env).ballSpeedMultiplier = g.ballSpeedMultiplier := by
  unfold resolvePaddleHits
  dsimp only
  split <;> split <;> rfl

@[simp] theorem resolveScoring_playerPaddle (g : Game) (env : Env) :
    (resolveScoring g env).playerPaddle = g.playerPaddle := by
  unfold resolveScoring
  split <;> [rfl; split <;> rfl]

@[simp] theorem resolveScoring_aiPaddle (g : Game) (env : Env) :
    (resolveScoring g env).aiPaddle = g.aiPaddle := by
  unfold resolveScoring
  split <;> [rfl; split <;> rfl]

@[simp] theorem resolveScoring_ballSpeedMultiplier (g : Game) (env : Env) :
    (resolveScoring g env).ballSpeedMultiplier = g.ballSpeedMultiplier := by
  unfold resolveScoring
  split <;> [rfl; split <;> rfl]

@[simp] theorem checkGameOver_playerPaddle (g : Game) :
    (checkGameOver g).playerPaddle = g.playerPaddle := by
  unfold checkGameOver; split <;> rfl

@[simp] theorem checkGameOver_aiPaddle (g : Game) :
    (checkGameOver g).aiPaddle = g.aiPaddle := by
  unfold checkGameOver; split <;> rfl

@[simp] theorem checkGameOver_ballSpeedMultiplier (g : Game) :
    (checkGameOver g).ballSpeedMultiplier = g.ballSpeedMultiplier := by
  unfold checkGameOver; split <;> rfl

@[simp] theorem movePlayerPaddle_ballSpeedMultiplier (g : Game) (env : Env) :
    (movePlayerPaddle g env).ballSpeedMultiplier = g.ballSpeedMultiplier := rfl

@[simp] theorem movePlayerPaddle_aiPaddle (g : Game) (env : Env) :
    (movePlayerPaddle g env).aiPaddle = g.aiPaddle := rfl

@[simp] theorem moveSecondPaddle_ballSpeedMultiplier (g : Game) (env : Env) :
    (moveSecondPaddle g env).ballSpeedMultiplier = g.ballSpeedMultiplier := by
  unfold moveSecondPaddle
  cases g.mode <;> rfl

@[simp] theorem moveSecondPaddle_playerPaddle (g : Game) (env : Env) :
    (moveSecondPaddle g env).playerPaddle = g.playerPaddle := by
  unfold moveSecondPaddle
  cases g.mode <;> rfl

@[simp] theorem InitGame_ballSpeedMultiplier (g : Game) (mode : GameMode) (env : Env) :
    (InitGame g mode env).ballSpeedMultiplier = g.ballSpeedMultiplier := rfl

/-! ## Helper lemmas: the wall-bounce folding loop -/

theorem foldBounce_step (h : ℚ) (m : ℕ) (p : ℚ) :
    foldBounce h (m + 1) p =
      if bounceDistance h p > 0 then
        if p < 0 then foldBounce h m (-p)
        else if p > h then foldBounce h m (2 * h - p)
        else p
      else p := rfl

/-- Once the bounce distance is non-positive the loop exits immediately,
whatever fuel remains. -/
theorem foldBounce_fix (h : ℚ) (m : ℕ) (q : ℚ) (hb : ¬bounceDistance h q > 0) :
    foldBounce h m q = q := by
  cases m with
  | zero => rfl
  | succ m => rw [foldBounce_step, if_neg hb]

theorem bounceDistance_nonpos (q : ℚ) (h0 : 0 ≤ q) (h1 : q ≤ SCREEN_HEIGHT) :
    ¬bounceDistance SCREEN_HEIGHT q > 0 := by
  unfold bounceDistance
  rw [if_neg (not_lt.mpr h0), if_neg (not_lt.mpr h1)]
  norm_num

/-- Two units of fuel already compute the final value of the
`while (bounceDistance > 0)` loop: the loop never iterates more than
twice, because after one reflection from each side the bounce-distance
guard is non-positive. -/
theorem foldBounce_stable (n : ℕ) (p : ℚ) :
    foldBounce SCREEN_HEIGHT (n + 2) p = foldBounce SCREEN_HEIGHT 2 p := by
  by_cases hb : bounceDistance SCREEN_HEIGHT p > 0
  · have hb' := hb
    unfold bounceDistance at hb'
    conv_lhs => rw [show n + 2 = (n + 1) + 1 from rfl, foldBounce_step, if_pos hb]
    conv_rhs => rw [show (2 : ℕ) = 1 + 1 from rfl, foldBounce_step, if_pos hb]
    split_ifs with h1 h2
    · -- p < 0: one reflection to -p, possibly a second
      by_cases hb2 : bounceDistance SCREEN_HEIGHT (-p) > 0
      · have hb2' := hb2
        unfold bounceDistance at hb2'
        have hnn : ¬(-p < 0) := by push_neg; linarith
        have hgt : -p > SCREEN_HEIGHT := by
          by_contra hle
          push_neg at hle
          rw [if_neg hnn, if_neg (not_lt.mpr hle)] at hb2'
          exact absurd hb2' (by norm_num)
        rw [if_neg hnn, if_pos hgt] at hb2'
        conv_lhs => rw [foldBounce_step, if_pos hb2, if_neg hnn, if_pos hgt]
        conv_rhs => rw [show (1 : ℕ) = 0 + 1 from rfl, foldBounce_step, if_pos hb2,
          if_neg hnn, if_pos hgt]
        have hfix : ¬bounceDistance SCREEN_HEIGHT (2 * SCREEN_HEIGHT - -p) > 0 :=
          bounceDistance_nonpos _ (by linarith) (by linarith)
        rw [foldBounce_fix _ _ _ hfix, foldBounce_fix _ _ _ hfix]
      · rw [foldBounce_fix _ _ _ hb2, foldBounce_fix _ _ _ hb2]
    · -- p > SCREEN_HEIGHT: one reflection lands inside the screen
      rw [if_neg h1, if_pos h2] at hb'
      have hfix : ¬bounceDistance SCREEN_HEIGHT (2 * SCREEN_HEIGHT - p) > 0 :=
        bounceDistance_nonpos _ (by linarith) (by linarith)
      rw [foldBounce_fix _ _ _ hfix, foldBounce_fix _ _ _ hfix]
    · rfl
  · rw [foldBounce_fix _ _ _ hb, foldBounce_fix _ _ _ hb]

/-- Whenever the linear projection lands strictly within one full screen
mirror on either side, the folding loop returns a value inside the
screen. -/
theorem foldBounce_band (n : ℕ) (p : ℚ)
    (hlo : -(2 * SCREEN_HEIGHT) < p) (hhi : p < 2 * SCREEN_HEIGHT) :
    0 ≤ foldBounce SCREEN_HEIGHT (n + 2) p ∧
      foldBounce SCREEN_HEIGHT (n + 2) p ≤ SCREEN_HEIGHT := by
  have hH : SCREEN_HEIGHT = (800 : ℚ) := rfl
  rw [hH] at hlo hhi
  rcases lt_or_le p 0 with hneg | hpos
  · -- p < 0: one reflection to -p, possibly a second to 1600 + p
    have hb : bounceDistance SCREEN_HEIGHT p > 0 := by
      unfold bounceDistance; rw [if_pos hneg]; linarith
    rw [show n + 2 = (n + 1) + 1 from rfl, foldBounce_step, if_pos hb, if_pos hneg]
    rcases le_or_lt (-p) SCREEN_HEIGHT with hle | hgt
    · have hfix : ¬bounceDistance SCREEN_HEIGHT (-p) > 0 :=
        bounceDistance_nonpos _ (by linarith) hle
      rw [foldBounce_fix _ _ _ hfix]
      constructor <;> linarith
    · have hb2 : bounceDistance SCREEN_HEIGHT (-p) > 0 := by
        unfold bounceDistance
        rw [if_neg (by push_neg; linarith), if_pos hgt, hH]
        linarith
      rw [foldBounce_step, if_pos hb2, if_neg (by push_neg; linarith), if_pos hgt]
      have hfix : ¬bounceDistance SCREEN_HEIGHT (2 * SCREEN_HEIGHT - -p) > 0 := by
        apply bounceDistance_nonpos <;> rw [hH] at hgt ⊢ <;> linarith
      rw [foldBounce_fix _ _ _ hfix]
      rw [hH] at hgt ⊢
      constructor <;> linarith
  · rcases le_or_lt p SCREEN_HEIGHT with hle | hgt
    · rw [foldBounce_fix _ _ _ (bounceDistance_nonpos _ hpos hle)]
      exact ⟨hpos, hle⟩
    · have hb : bounceDistance SCREEN_HEIGHT p > 0 := by
        unfold bounceDistance
        rw [if_neg (by push_neg; linarith), if_pos hgt, hH]
        linarith
      rw [show n + 2 = (n + 1) + 1 from rfl, foldBounce_step, if_pos hb,
        if_neg (by push_neg; linarith), if_pos hgt]
      have hfix : ¬bounceDistance SCREEN_HEIGHT (2 * SCREEN_HEIGHT - p) > 0 := by
        apply bounceDistance_nonpos <;> rw [hH] at hgt ⊢ <;> linarith
      rw [foldBounce_fix _ _ _ hfix]
      rw [hH] at hgt ⊢
      constructor <;> linarith

/-! ## Helper lemmas: particle pool sizes -/

theorem updateParticles_length_le (dt : ℚ) (l : List Particle) :
    (updateParticles dt l).length ≤ l.length := by
  induction l with
  | nil => simp [updateParticles]
  | cons p ps ih =>
      simp only [updateParticles]
      split
      · exact le_trans ih (by simp)
      · simpa using ih

theorem emitLoop_length (pos : Vector2) (c : Color) (rnds : ℕ → ℤ × ℤ × ℤ × ℤ) :
    ∀ (n i : ℕ) (pool : List Particle), pool.length ≤ MAX_PARTICLES →
      (emitLoop pos c rnds n i pool).length = min (pool.length + n) MAX_PARTICLES := by
  intro n
  induction n with
  | zero =>
      intro i pool h
      simp only [emitLoop]
      omega
  | succ n ih =>
      intro i pool h
      simp only [emitLoop]
      split
      · rw [ih _ _ (by simp; omega)]
        simp
        omega
      · omega

theorem emitLoop_length_le (pos : Vector2) (c : Color) (rnds : ℕ → ℤ × ℤ × ℤ × ℤ)
    (n i : ℕ) (pool : List Particle) (h : pool.length ≤ MAX_PARTICLES) :
    (emitLoop pos c rnds n i pool).length ≤ MAX_PARTICLES := by
  rw [emitLoop_length pos c rnds n i pool h]
  omega

/-! ## Helper lemmas: the AI paddle stays on screen -/

theorem clampPaddleY_bounds (p : Paddle) (hh : p.rect.height = PADDLE_HEIGHT) :
    (clampPaddleY p).rect.height = PADDLE_HEIGHT ∧
    0 ≤ (clampPaddleY p).rect.y ∧
    (clampPaddleY p).rect.y ≤ SCREEN_HEIGHT - PADDLE_HEIGHT := by
  unfold clampPaddleY
  dsimp only
  rw [hh]
  exact ⟨rfl, Clamp_mem _ 0 _ (by norm_num [SCREEN_HEIGHT, PADDLE_HEIGHT])⟩

theorem UpdateAI_bounds (aiPaddle : Paddle) (ball : Ball) (g : Game) (env : Env)
    (hh : aiPaddle.rect.height = PADDLE_HEIGHT) :
    (UpdateAI aiPaddle ball g env).rect.height = PADDLE_HEIGHT ∧
    0 ≤ (UpdateAI aiPaddle ball g env).rect.y ∧
    (UpdateAI aiPaddle ball g env).rect.y ≤ SCREEN_HEIGHT - PADDLE_HEIGHT := by
  unfold UpdateAI
  dsimp only
  apply clampPaddleY_bounds
  split_ifs <;> exact hh

/-- A fixed mode-select frame: no keys, mouse up, pointer at the origin. -/
def sampleModeEnv : ModeEnv :=
  { keyOne := false, keyTwo := false, mouseDown := false, mousePressed := false
    mousePos := ⟨0, 0⟩, initEnv := sampleEnv }

/-! ## Claim theorems -/

/-- Claim C1: for every paddle hit resolved during a Playing tick, the post-hit
horizontal ball speed equals `min(|pre| + SPEED_INCREMENT, MAX_BALL_SPEED *
ballSpeedMultiplier)`, with positive sign (toward the right) after a
player-paddle hit and negative sign (toward the left) after an AI-paddle hit;
and as long as the pre-hit speed is within the cap — as it is in every
reachable Playing state — the horizontal speed never decreases on a hit. -/
theorem hit_speed_ratchet (g : Game) (env : Env) (hmult : 0 < g.ballSpeedMultiplier) :
    (applyPlayerHit g env).ball.velocity.x
        = min (|g.ball.velocity.x| + SPEED_INCREMENT) (MAX_BALL_SPEED * g.ballSpeedMultiplier) ∧
    (applyAiHit g env).ball.velocity.x
        = -min (|g.ball.velocity.x| + SPEED_INCREMENT) (MAX_BALL_SPEED * g.ballSpeedMultiplier) ∧
    0 < hitSpeed g ∧
    (|g.ball.velocity.x| ≤ MAX_BALL_SPEED * g.ballSpeedMultiplier →
      |g.ball.velocity.x| ≤ hitSpeed g) := by
  refine ⟨rfl, rfl, ?_, ?_⟩
  · apply lt_min
    · have h := abs_nonneg g.ball.velocity.x
      have hs : SPEED_INCREMENT = (1/5 : ℚ) := rfl
      linarith [hs ▸ le_refl SPEED_INCREMENT]
    · exact mul_pos (by norm_num [MAX_BALL_SPEED]) hmult
  · intro h
    exact le_min (le_add_of_nonneg_right (by norm_num [SPEED_INCREMENT])) h

/-- Witness for C1: a hit at multiplier 1 with pre-hit horizontal speed 8
yields post-hit speed `8.2 = 41/5`, rightward for the player paddle and
leftward for the AI paddle. -/
theorem hit_speed_ratchet_witness :
    (applyPlayerHit sampleGame sampleEnv).ball.velocity.x = 41/5 ∧
    (applyAiHit sampleGame sampleEnv).ball.velocity.x = -(41/5) := by
  have h := hit_speed_ratchet sampleGame sampleEnv (by norm_num [sampleGame])
  constructor
  · rw [h.1]
    norm_num [sampleGame, SPEED_INCREMENT, MAX_BALL_SPEED, inf_eq_min, min_def,
      abs_of_nonneg]
  · rw [h.2.1]
    norm_num [sampleGame, SPEED_INCREMENT, MAX_BALL_SPEED, inf_eq_min, min_def,
      abs_of_nonneg]

/-- Claim C4: on every Playing tick whose post-integration ball crosses the
top or bottom boundary, the wall-collision step flips the vertical velocity
exactly once (the horizontal one is untouched) and leaves the vertical
position inside `[radius, screenHeight - radius]`. -/
theorem wall_bounce_resolution (b : Ball) (hr : b.radius = BALL_RADIUS)
    (hcross : b.position.y - b.radius ≤ 0 ∨ SCREEN_HEIGHT ≤ b.position.y + b.radius) :
    (resolveWallCollision b).velocity.y = -b.velocity.y ∧
    (resolveWallCollision b).velocity.x = b.velocity.x ∧
    BALL_RADIUS ≤ (resolveWallCollision b).position.y ∧
    (resolveWallCollision b).position.y ≤ SCREEN_HEIGHT - BALL_RADIUS := by
  unfold resolveWallCollision
  rw [if_pos hcross]
  dsimp only
  rw [hr]
  split_ifs with h1 h2 h3
  · exact ⟨by simp, rfl, by norm_num [BALL_RADIUS, SCREEN_HEIGHT, WALL_BOUNCE_BUFFER],
      by norm_num [BALL_RADIUS, SCREEN_HEIGHT, WALL_BOUNCE_BUFFER]⟩
  · exact ⟨by simp, rfl, by norm_num [BALL_RADIUS, WALL_BOUNCE_BUFFER],
      by norm_num [BALL_RADIUS, SCREEN_HEIGHT, WALL_BOUNCE_BUFFER]⟩
  · exact ⟨by simp, rfl, by norm_num [BALL_RADIUS, SCREEN_HEIGHT, WALL_BOUNCE_BUFFER],
      by norm_num [BALL_RADIUS, SCREEN_HEIGHT, WALL_BOUNCE_BUFFER]⟩
  · exact ⟨by simp, rfl, not_lt.mp h1, not_lt.mp h3⟩

/-- Witness for C4, the spec scenario: ball at `y = 795` with velocity
`(-8, 3)` and radius 20; one integration step reaches `y = 798`, the crossing
fires, the vertical velocity becomes `-3` and the ball is repositioned to
`y = 778`. -/
theorem wall_bounce_resolution_witness :
    (resolveWallCollision (integrateBall ⟨⟨640, 795⟩, ⟨-8, 3⟩, 20, COLOR_BALL⟩)).velocity.y
        = -3 ∧
    (resolveWallCollision (integrateBall ⟨⟨640, 795⟩, ⟨-8, 3⟩, 20, COLOR_BALL⟩)).position.y
        ≤ 778 := by
  have h := wall_bounce_resolution (integrateBall ⟨⟨640, 795⟩, ⟨-8, 3⟩, 20, COLOR_BALL⟩)
    rfl (Or.inr (by norm_num [integrateBall, SCREEN_HEIGHT]))
  constructor
  · rw [h.1]
    norm_num [integrateBall]
  · norm_num [resolveWallCollision, integrateBall, SCREEN_HEIGHT, BALL_RADIUS,
      WALL_BOUNCE_BUFFER]

/-- Claim C9: the AI interception-time division is guarded — routing it
through a checked division that fails on a zero divisor never fails, and
whenever the ball is not moving toward the AI paddle the prediction falls
back to the ball's current vertical position without dividing at all. -/
theorem ai_division_guard (aiPaddle : Paddle) (ball : Ball) :
    aiPredictedYChecked aiPaddle ball = some (aiPredictedY aiPaddle ball) ∧
    (ball.velocity.x ≤ 0 → aiPredictedY aiPaddle ball = ball.position.y) := by
  constructor
  · by_cases h : ball.velocity.x > 0
    · have hz : ball.velocity.x ≠ 0 := ne_of_gt h
      unfold aiPredictedYChecked aiPredictedY checkedDiv
      rw [if_pos h, if_pos h, if_neg hz]
      dsimp only
      split_ifs <;> rfl
    · unfold aiPredictedYChecked aiPredictedY
      rw [if_neg h, if_neg h]
  · intro hle
    unfold aiPredictedY
    rw [if_neg (not_lt.mpr hle)]

/-- Witness for C9 at the exact zero-divisor input: a ball with zero
horizontal velocity takes the fallback branch and no division happens. -/
theorem ai_division_guard_witness :
    aiPredictedYChecked ⟨⟨1245, 300, 25, 200⟩, 12, COLOR_AI⟩
        ⟨⟨640, 400⟩, ⟨0, 3⟩, 20, COLOR_BALL⟩ = some 400 ∧
    aiPredictedY ⟨⟨1245, 300, 25, 200⟩, 12, COLOR_AI⟩
        ⟨⟨640, 400⟩, ⟨0, 3⟩, 20, COLOR_BALL⟩ = 400 := by
  have h := ai_division_guard ⟨⟨1245, 300, 25, 200⟩, 12, COLOR_AI⟩
    ⟨⟨640, 400⟩, ⟨0, 3⟩, 20, COLOR_BALL⟩
  have h2 := h.2 (by norm_num)
  exact ⟨by rw [h.1, h2], h2⟩

/-- Claim C10: `InitGame` never modifies `ballSpeedMultiplier` (for every
prior value, mode and environment), no `UpdateGame` tick modifies it either
(including the restart-from-GameOver path, which goes through `InitGame`),
and a mode-select frame without the mouse button held — hence without any
slider interaction — leaves it unchanged too. -/
theorem speedMultiplier_frame (g : Game) (mode : GameMode) (env : Env)
    (dragging : Bool) (menv : ModeEnv) :
    (InitGame g mode env).ballSpeedMultiplier = g.ballSpeedMultiplier ∧
    (UpdateGame g env).ballSpeedMultiplier = g.ballSpeedMultiplier ∧
    (menv.mouseDown = false →
      (UpdateModeSelect g dragging menv).1.ballSpeedMultiplier = g.ballSpeedMultiplier) := by
  refine ⟨rfl, ?_, ?_⟩
  · unfold UpdateGame
    split <;> (try split_ifs) <;> simp [playingPhysics]
  · intro hmd
    unfold UpdateModeSelect
    dsimp only
    rw [hmd]
    split_ifs <;> first | contradiction | simp

/-- Witness for C10: with the mouse button up, a mode-select frame (and an
`InitGame` from it) keeps the multiplier at its prior value 1. -/
theorem speedMultiplier_frame_witness :
    (UpdateModeSelect sampleGame false sampleModeEnv).1.ballSpeedMultiplier = 1 ∧
    (InitGame sampleGame GameMode.ai sampleEnv).ballSpeedMultiplier = 1 := by
  have h := speedMultiplier_frame sampleGame GameMode.ai sampleEnv false sampleModeEnv
  exact ⟨by rw [h.2.2 rfl]; rfl, by rw [h.1]; rfl⟩

theorem movePlayerPaddle_bounds (g : Game) (env : Env)
    (hph : g.playerPaddle.rect.height = PADDLE_HEIGHT) :
    (movePlayerPaddle g env).playerPaddle.rect.height = PADDLE_HEIGHT ∧
    0 ≤ (movePlayerPaddle g env).playerPaddle.rect.y ∧
    (movePlayerPaddle g env).playerPaddle.rect.y ≤ SCREEN_HEIGHT - PADDLE_HEIGHT := by
  unfold movePlayerPaddle
  dsimp only
  exact clampPaddleY_bounds _ hph

theorem moveSecondPaddle_bounds (g : Game) (env : Env)
    (hah : g.aiPaddle.rect.height = PADDLE_HEIGHT) :
    (moveSecondPaddle g env).aiPaddle.rect.height = PADDLE_HEIGHT ∧
    0 ≤ (moveSecondPaddle g env).aiPaddle.rect.y ∧
    (moveSecondPaddle g env).aiPaddle.rect.y ≤ SCREEN_HEIGHT - PADDLE_HEIGHT := by
  unfold moveSecondPaddle
  cases hm : g.mode
  · dsimp only
    exact UpdateAI_bounds _ _ _ _ hah
  · dsimp only
    exact clampPaddleY_bounds _ hah

/-- Claim C2: if a Playing tick reaches its scoring step (no pause toggle)
and either score then meets the win threshold, the phase becomes GameOver on
that same tick; a Paused tick changes nothing except possibly the phase
(back to Playing on the toggle); a GameOver tick without a restart changes
nothing except possibly the phase (to ModeSelect on the menu key); and a
GameOver tick with the restart key is exactly `InitGame` on the same mode. -/
theorem phase_machine (g : Game) (env : Env) :
    (g.state = GameState.playing → env.keyP = false →
      ((playingPhysics g env).playerScore ≥ (playingPhysics g env).winScore ∨
       (playingPhysics g env).aiScore ≥ (playingPhysics g env).winScore) →
      (UpdateGame g env).state = GameState.gameOver) ∧
    (g.state = GameState.paused →
      (UpdateGame g env).ball = g.ball ∧
      (UpdateGame g env).playerPaddle = g.playerPaddle ∧
      (UpdateGame g env).aiPaddle = g.aiPaddle ∧
      (UpdateGame g env).playerScore = g.playerScore ∧
      (UpdateGame g env).aiScore = g.aiScore ∧
      (UpdateGame g env).state
        = (if env.keyP then GameState.playing else GameState.paused)) ∧
    (g.state = GameState.gameOver → env.keyR = false →
      (UpdateGame g env).ball = g.ball ∧
      (UpdateGame g env).playerPaddle = g.playerPaddle ∧
      (UpdateGame g env).aiPaddle = g.aiPaddle ∧
      (UpdateGame g env).playerScore = g.playerScore ∧
      (UpdateGame g env).aiScore = g.aiScore ∧
      (UpdateGame g env).state
        = (if env.keyM then GameState.modeSelect else GameState.gameOver)) ∧
    (g.state = GameState.gameOver → env.keyR = true →
      UpdateGame g env = InitGame g g.mode env) := by
  refine ⟨?_, ?_, ?_, ?_⟩
  · intro hst hkp hwin
    simp only [UpdateGame, hst]
    rw [hkp]
    have hco : checkGameOver (playingPhysics g env)
        = { playingPhysics g env with state := GameState.gameOver } := by
      unfold checkGameOver
      rw [if_pos hwin]
    simp [hco]
  · intro hst
    simp only [UpdateGame, hst]
    by_cases hk : env.keyP = true <;> simp [hk, hst]
  · intro hst hkr
    simp only [UpdateGame, hst]
    by_cases hkm : env.keyM = true <;> simp [hkr, hkm, hst]
  · intro hst hkr
    simp only [UpdateGame, hst]
    rw [if_pos hkr]

/-- Witness for C2: a Playing tick at score 10:0 with `winScore = 10` and no
keys pressed ends in GameOver. -/
theorem phase_machine_witness :
    (UpdateGame sampleGame sampleEnv).state = GameState.gameOver := by
  refine (phase_machine sampleGame sampleEnv).1 rfl rfl (Or.inl ?_)
  norm_num [sampleGame, sampleEnv, playingPhysics, movePlayerPaddle, moveSecondPaddle,
    clampPaddleY, integrateBall, resolveWallCollision, resolvePaddleHits, resolveScoring,
    CheckPaddleCollision, CheckCollisionPointRec, CheckCollisionCircleRec,
    applyPlayerHit, applyAiHit, hitSpeed, hitOffset, ResetBall, CreateParticleEffect,
    Clamp, abs_of_nonneg, abs_of_nonpos, inf_eq_min, min_def, emitLoop, mkParticle,
    ColorAlpha, MAX_PARTICLES, SCREEN_WIDTH, SCREEN_HEIGHT, BALL_RADIUS, PADDLE_HEIGHT,
    SPEED_INCREMENT, MAX_BALL_SPEED, BALL_INITIAL_SPEED, WALL_BOUNCE_BUFFER]

/-- Claim C3: a Playing tick keeps both paddles' vertical positions inside
`[0, 600] = [0, screenHeight - paddleHeight]`, in both modes, for every
input, every random draw and every ball state (heights 200 as `InitGame`
creates them; a pause toggle leaves the in-range positions untouched). -/
theorem paddle_bounds_invariant (g : Game) (env : Env)
    (hst : g.state = GameState.playing)
    (hph : g.playerPaddle.rect.height = PADDLE_HEIGHT)
    (hah : g.aiPaddle.rect.height = PADDLE_HEIGHT)
    (hp0 : 0 ≤ g.playerPaddle.rect.y) (hp1 : g.playerPaddle.rect.y ≤ 600)
    (ha0 : 0 ≤ g.aiPaddle.rect.y) (ha1 : g.aiPaddle.rect.y ≤ 600) :
    (0 ≤ (UpdateGame g env).playerPaddle.rect.y ∧
      (UpdateGame g env).playerPaddle.rect.y ≤ 600) ∧
    (0 ≤ (UpdateGame g env).aiPaddle.rect.y ∧
      (UpdateGame g env).aiPaddle.rect.y ≤ 600) := by
  have h6 : SCREEN_HEIGHT - PADDLE_HEIGHT = (600 : ℚ) := by
    norm_num [SCREEN_HEIGHT, PADDLE_HEIGHT]
  simp only [UpdateGame, hst]
  by_cases hk : env.keyP = true
  · rw [if_pos hk]
    exact ⟨⟨hp0, hp1⟩, ha0, ha1⟩
  · rw [if_neg hk]
    have hp := movePlayerPaddle_bounds g env hph
    have ha := moveSecondPaddle_bounds (movePlayerPaddle g env) env hah
    unfold playingPhysics
    dsimp only
    simp only [checkGameOver_playerPaddle, checkGameOver_aiPaddle,
      resolveScoring_playerPaddle, resolveScoring_aiPaddle,
      resolvePaddleHits_playerPaddle, resolvePaddleHits_aiPaddle,
      moveSecondPaddle_playerPaddle]
    exact ⟨⟨hp.2.1, h6 ▸ hp.2.2⟩, ha.2.1, h6 ▸ ha.2.2⟩

/-- Witness for C3: one tick from the sample Playing state keeps both
paddles inside `[0, 600]`. -/
theorem paddle_bounds_invariant_witness :
    (0 ≤ (UpdateGame sampleGame sampleEnv).playerPaddle.rect.y ∧
      (UpdateGame sampleGame sampleEnv).playerPaddle.rect.y ≤ 600) ∧
    (0 ≤ (UpdateGame sampleGame sampleEnv).aiPaddle.rect.y ∧
      (UpdateGame sampleGame sampleEnv).aiPaddle.rect.y ≤ 600) :=
  paddle_bounds_invariant sampleGame sampleEnv rfl rfl rfl
    (by norm_num [sampleGame]) (by norm_num [sampleGame])
    (by norm_num [sampleGame]) (by norm_num [sampleGame])

/-! ## Helper lemmas: vertical acceptance region of the collision tests -/

theorem CheckCollisionPointRec_y (p : Vector2) (rec : Rectangle)
    (h : CheckCollisionPointRec p rec = true) :
    rec.y ≤ p.y ∧ p.y < rec.y + rec.height := by
  unfold CheckCollisionPointRec at h
  simp only [Bool.and_eq_true, decide_eq_true_eq] at h
  exact ⟨h.1.2, h.2⟩

theorem CheckCollisionCircleRec_dy_le (c : Vector2) (radius : ℚ) (rec : Rectangle)
    (h : CheckCollisionCircleRec c radius rec = true) :
    |c.y - (rec.y + rec.height / 2)| ≤ rec.height / 2 + radius := by
  unfold CheckCollisionCircleRec at h
  dsimp only at h
  split_ifs at h with h1 h2 h3 h4
  all_goals exact not_lt.mp h2

/-- Claim C5 counterexample: `CheckPaddleCollision` accepts a ball whose
center is 19 px above the paddle top (inside the radius-inflated hit box),
and the hit offset there is `-1.19`, outside `[-1, 1]`. -/
theorem hit_offset_out_of_range :
    CheckPaddleCollision ⟨⟨30, 281⟩, ⟨-8, 0⟩, 20, COLOR_BALL⟩
        ⟨⟨10, 300, 25, 200⟩, 12, COLOR_PLAYER_ONE⟩ = true ∧
    hitOffset ⟨⟨30, 281⟩, ⟨-8, 0⟩, 20, COLOR_BALL⟩
        ⟨⟨10, 300, 25, 200⟩, 12, COLOR_PLAYER_ONE⟩ < -1 := by
  constructor
  · norm_num [CheckPaddleCollision, CheckCollisionPointRec, CheckCollisionCircleRec,
      SCREEN_WIDTH]
  · norm_num [hitOffset]

/-- Claim C5 amended: for every ball position that `CheckPaddleCollision`
accepts as a hit (paddle height 200, ball radius 20, as the game creates
them), the normalized hit offset lies in `[-1.2, 1.2]` — the inflated
acceptance region admits offsets up to `1 + radius/(height/2)`, not 1. -/
theorem hit_offset_bounds (ball : Ball) (paddle : Paddle)
    (hh : paddle.rect.height = PADDLE_HEIGHT) (hr : ball.radius = BALL_RADIUS)
    (hc : CheckPaddleCollision ball paddle = true) :
    -(6/5) ≤ hitOffset ball paddle ∧ hitOffset ball paddle ≤ 6/5 := by
  have hub : |ball.position.y - (paddle.rect.y + 100)| ≤ 120 := by
    unfold CheckPaddleCollision at hc
    dsimp only at hc
    rw [hh, hr] at hc
    split_ifs at hc with hm hray hpc
    · simp only [Bool.or_eq_true] at hpc
      rcases hpc with hA | hB
      · have hy := CheckCollisionPointRec_y _ _ hA
        dsimp only at hy
        norm_num [PADDLE_HEIGHT, BALL_RADIUS] at hy
        rw [abs_le]
        constructor <;> linarith [hy.1, hy.2]
      · have hdy := CheckCollisionCircleRec_dy_le _ _ _ hB
        dsimp only at hdy
        norm_num [PADDLE_HEIGHT, BALL_RADIUS] at hdy
        rw [abs_le] at hdy ⊢
        constructor <;> linarith [hdy.1, hdy.2]
    · have hdy := CheckCollisionCircleRec_dy_le _ _ _ hc
      dsimp only at hdy
      norm_num [PADDLE_HEIGHT, BALL_RADIUS] at hdy
      rw [abs_le] at hdy ⊢
      constructor <;> linarith [hdy.1, hdy.2]
    · have hdy := CheckCollisionCircleRec_dy_le _ _ _ hc
      dsimp only at hdy
      norm_num [PADDLE_HEIGHT, BALL_RADIUS] at hdy
      rw [abs_le] at hdy ⊢
      constructor <;> linarith [hdy.1, hdy.2]
  have h2 : hitOffset ball paddle = (ball.position.y - (paddle.rect.y + 100)) / 100 := by
    rw [hitOffset, hh]
    norm_num [PADDLE_HEIGHT]
  rw [abs_le] at hub
  constructor
  · rw [h2, le_div_iff₀ (by norm_num : (0:ℚ) < 100)]
    linarith [hub.1]
  · rw [h2, div_le_iff₀ (by norm_num : (0:ℚ) < 100)]
    linarith [hub.2]

/-- Witness for the amended C5: a dead-center hit has offset 0, inside
`[-1.2, 1.2]`. -/
theorem hit_offset_bounds_witness :
    -(6/5) ≤ hitOffset ⟨⟨30, 400⟩, ⟨-8, 0⟩, 20, COLOR_BALL⟩
        ⟨⟨10, 300, 25, 200⟩, 12, COLOR_PLAYER_ONE⟩ ∧
    hitOffset ⟨⟨30, 400⟩, ⟨-8, 0⟩, 20, COLOR_BALL⟩
        ⟨⟨10, 300, 25, 200⟩, 12, COLOR_PLAYER_ONE⟩ ≤ 6/5 :=
  hit_offset_bounds _ _ rfl rfl
    (by norm_num [CheckPaddleCollision, CheckCollisionPointRec, CheckCollisionCircleRec,
      SCREEN_WIDTH])

/-- Claim C6 counterexample: with the AI paddle at `x = 1245` and the ball
at `(25, 0)` moving at `(5, 10)` — horizontal velocity strictly positive and
time to intercept `244 > 0` — the projected `y` is 2440, beyond twice the
screen height, so the folding loop's bounce-distance guard is negative, no
folding happens, and the predicted interception `y` is 2440, far outside
`[0, 800]`. -/
theorem ai_prediction_escapes :
    ((⟨⟨25, 0⟩, ⟨5, 10⟩, 20, COLOR_BALL⟩ : Ball).velocity.x > 0) ∧
    (0 : ℚ) < (1245 - 25) / 5 ∧
    aiPredictedY ⟨⟨1245, 300, 25, 200⟩, 12, COLOR_AI⟩
        ⟨⟨25, 0⟩, ⟨5, 10⟩, 20, COLOR_BALL⟩ = 2440 ∧
    ¬(aiPredictedY ⟨⟨1245, 300, 25, 200⟩, 12, COLOR_AI⟩
        ⟨⟨25, 0⟩, ⟨5, 10⟩, 20, COLOR_BALL⟩ ≤ SCREEN_HEIGHT) := by
  refine ⟨by norm_num, by norm_num, ?_, ?_⟩
  · norm_num [aiPredictedY, foldBounce, bounceDistance, SCREEN_HEIGHT]
  · norm_num [aiPredictedY, foldBounce, bounceDistance, SCREEN_HEIGHT]

/-- Claim C6 amended: whenever the AI performs trajectory prediction
(horizontal velocity strictly positive, time to intercept positive) and the
raw linear projection lands strictly within `(-2·screenHeight,
2·screenHeight)`, the folded interception `y` lies within
`[0, screenHeight]`.  The claim's universal bound can fail outside that
band, as the counterexample shows at projection 2440. -/
theorem ai_fold_in_band (aiPaddle : Paddle) (ball : Ball)
    (hvx : 0 < ball.velocity.x)
    (ht : 0 < (aiPaddle.rect.x - ball.position.x) / ball.velocity.x)
    (hlo : -(2 * SCREEN_HEIGHT) <
      ball.position.y + ball.velocity.y * ((aiPaddle.rect.x - ball.position.x) / ball.velocity.x))
    (hhi : ball.position.y + ball.velocity.y * ((aiPaddle.rect.x - ball.position.x) / ball.velocity.x)
      < 2 * SCREEN_HEIGHT) :
    0 ≤ aiPredictedY aiPaddle ball ∧ aiPredictedY aiPaddle ball ≤ SCREEN_HEIGHT := by
  have he : aiPredictedY aiPaddle ball
      = foldBounce SCREEN_HEIGHT (1 + 2)
          (ball.position.y + ball.velocity.y *
            ((aiPaddle.rect.x - ball.position.x) / ball.velocity.x)) := by
    unfold aiPredictedY
    rw [if_pos hvx, if_pos ht]
  rw [he]
  exact foldBounce_band 1 _ hlo hhi

/-- Witness for the amended C6: ball at `(1045, 400)` with velocity `(8, 4)`
projects to `y = 500`, inside the band, and the prediction stays in
`[0, 800]`. -/
theorem ai_fold_in_band_witness :
    0 ≤ aiPredictedY ⟨⟨1245, 300, 25, 200⟩, 12, COLOR_AI⟩
        ⟨⟨1045, 400⟩, ⟨8, 4⟩, 20, COLOR_BALL⟩ ∧
    aiPredictedY ⟨⟨1245, 300, 25, 200⟩, 12, COLOR_AI⟩
        ⟨⟨1045, 400⟩, ⟨8, 4⟩, 20, COLOR_BALL⟩ ≤ SCREEN_HEIGHT :=
  ai_fold_in_band _ _ (by norm_num) (by norm_num)
    (by norm_num [SCREEN_HEIGHT]) (by norm_num [SCREEN_HEIGHT])

/-- Claim C7 counterexample: `InitGame` serves with `ResetBall(game, true)`,
whose horizontal velocity is `+BALL_INITIAL_SPEED * multiplier = +8` at
multiplier 1 — directed at the right (AI) paddle, not at the player's left
paddle as the claim states. -/
theorem init_serve_toward_player_ce :
    (InitGame sampleGame GameMode.ai sampleEnv).ball.velocity.x = 8 ∧
    ¬((InitGame sampleGame GameMode.ai sampleEnv).ball.velocity.x < 0) := by
  constructor <;>
    norm_num [InitGame, ResetBall, CreateParticleEffect, sampleGame, sampleEnv,
      BALL_INITIAL_SPEED]

/-- Claim C7 amended: `InitGame` zeroes both scores, sets the win threshold,
enters the Playing phase, re-creates the ball (centered, radius 20) and both
paddles at their standard rectangles, and serves the ball away from the
player: its initial horizontal velocity is `+BALL_INITIAL_SPEED *
multiplier`, positive, directed at the right (AI/second-player) paddle. -/
theorem initGame_spec (g : Game) (mode : GameMode) (env : Env)
    (hm : 0 < g.ballSpeedMultiplier) :
    (InitGame g mode env).playerScore = 0 ∧
    (InitGame g mode env).aiScore = 0 ∧
    (InitGame g mode env).winScore = 10 ∧
    (InitGame g mode env).state = GameState.playing ∧
    (InitGame g mode env).mode = mode ∧
    (InitGame g mode env).ball.position = ⟨SCREEN_WIDTH / 2, SCREEN_HEIGHT / 2⟩ ∧
    (InitGame g mode env).ball.radius = BALL_RADIUS ∧
    (InitGame g mode env).playerPaddle.rect
        = ⟨10, (SCREEN_HEIGHT - PADDLE_HEIGHT) / 2, PADDLE_WIDTH, PADDLE_HEIGHT⟩ ∧
    (InitGame g mode env).aiPaddle.rect
        = ⟨SCREEN_WIDTH - 10 - PADDLE_WIDTH, (SCREEN_HEIGHT - PADDLE_HEIGHT) / 2,
           PADDLE_WIDTH, PADDLE_HEIGHT⟩ ∧
    (InitGame g mode env).ball.velocity.x = BALL_INITIAL_SPEED * g.ballSpeedMultiplier ∧
    0 < (InitGame g mode env).ball.velocity.x := by
  refine ⟨rfl, rfl, rfl, rfl, rfl, rfl, rfl, rfl, rfl, rfl, ?_⟩
  show (0 : ℚ) < BALL_INITIAL_SPEED * g.ballSpeedMultiplier
  exact mul_pos (by norm_num [BALL_INITIAL_SPEED]) hm

/-- Witness for the amended C7 at multiplier 1. -/
theorem initGame_spec_witness :
    (InitGame sampleGame GameMode.multiplayer sampleEnv).playerScore = 0 ∧
    (InitGame sampleGame GameMode.multiplayer sampleEnv).state = GameState.playing ∧
    0 < (InitGame sampleGame GameMode.multiplayer sampleEnv).ball.velocity.x := by
  have h := initGame_spec sampleGame GameMode.multiplayer sampleEnv
    (by norm_num [sampleGame])
  exact ⟨h.1, h.2.2.2.1, h.2.2.2.2.2.2.2.2.2.2⟩

/-! ## Claim C8: particle pool -/

/-- One external operation on the particle pool. -/
inductive ParticleOp where
  | emit (pos : Vector2) (color : Color) (count : ℕ) (rnds : ℕ → ℤ × ℤ × ℤ × ℤ)
  | tick (deltaTime : ℚ)

def applyParticleOp (g : Game) : ParticleOp → Game
  | ParticleOp.emit pos color count rnds => CreateParticleEffect g pos color count rnds
  | ParticleOp.tick dt => UpdateAndDrawParticles g dt

def applyParticleOps (g : Game) (ops : List ParticleOp) : Game :=
  ops.foldl applyParticleOp g

theorem applyParticleOps_le :
    ∀ (ops : List ParticleOp) (g : Game), g.particles.length ≤ MAX_PARTICLES →
      (applyParticleOps g ops).particles.length ≤ MAX_PARTICLES := by
  intro ops
  induction ops with
  | nil => intro g h; exact h
  | cons op rest ih =>
      intro g h
      show (applyParticleOps (applyParticleOp g op) rest).particles.length ≤ MAX_PARTICLES
      apply ih
      cases op with
      | emit pos color count rnds =>
          exact emitLoop_length_le pos color rnds count 0 g.particles h
      | tick dt => exact le_trans (updateParticles_length_le dt g.particles) h

/-- Claim C8: starting from an initialized game (empty pool), any sequence
of emissions and ticks keeps the live particle count at or below the pool
capacity 100; a single tick never increases the live count; and an emission
on a legal pool is silently truncated to exactly
`min(live + requested, 100)` particles. -/
theorem particle_pool_invariant (g0 : Game) (mode : GameMode) (env : Env)
    (ops : List ParticleOp) (g : Game) (dt : ℚ) (pos : Vector2) (c : Color)
    (count : ℕ) (rnds : ℕ → ℤ × ℤ × ℤ × ℤ)
    (hg : g.particles.length ≤ MAX_PARTICLES) :
    (applyParticleOps (InitGame g0 mode env) ops).particles.length ≤ MAX_PARTICLES ∧
    (UpdateAndDrawParticles g dt).particles.length ≤ g.particles.length ∧
    (CreateParticleEffect g pos c count rnds).particles.length
        = min (g.particles.length + count) MAX_PARTICLES := by
  refine ⟨?_, ?_, ?_⟩
  · apply applyParticleOps_le
    rw [show (InitGame g0 mode env).particles = [] from rfl]
    norm_num
  · exact updateParticles_length_le dt g.particles
  · exact emitLoop_length pos c rnds count 0 g.particles hg

/-- Witness for C8: from a fresh match, an oversized emission of 150
particles followed by a tick stays within capacity, and the emission on the
empty sample pool truncates to `min(0 + 150, 100) = 100`. -/
theorem particle_pool_invariant_witness :
    (applyParticleOps (InitGame sampleGame GameMode.ai sampleEnv)
        [ParticleOp.emit ⟨0, 0⟩ WHITE 150 (fun _ => (0, 0, 50, 3)),
         ParticleOp.tick (1/60)]).particles.length ≤ MAX_PARTICLES ∧
    (CreateParticleEffect sampleGame ⟨0, 0⟩ WHITE 150
        (fun _ => (0, 0, 50, 3))).particles.length
      = min (sampleGame.particles.length + 150) MAX_PARTICLES := by
  have h := particle_pool_invariant sampleGame GameMode.ai sampleEnv
    [ParticleOp.emit ⟨0, 0⟩ WHITE 150 (fun _ => (0, 0, 50, 3)),
     ParticleOp.tick (1/60)]
    sampleGame (1/60) ⟨0, 0⟩ WHITE 150 (fun _ => (0, 0, 50, 3))
    (by norm_num [sampleGame])
  exact ⟨h.1, h.2.2⟩

end Pong
